import Mathlib

/-!
Verification of the restaurant-finder core: a shallow embedding of the
cache-first query coordinator (`services/restaurant_service.py`), the
HTTP formatting layer (`main.py`) and the OpenStreetMap ingestion parser
(`services/osm_importer.py`), together with theorems settling the
specification claims about them.

Conventions of the embedding:
- Python strings are `Str := List Nat` (code points); `str.lower()` is the
  ASCII lowering map.
- Python floats (ratings, coordinates, distances, timestamps) are `Rat`.
- Fallible external calls (Redis, PostgreSQL) are `Except Unit` values
  carried in an environment record; an exception escaping a Python
  function is an `Except.error` result.
- Python truthiness on optional strings/numbers is modelled explicitly
  (`pyTruthyStr`, and the coordinate zero test in the parser).
-/

namespace RestaurantFinder

/-- Python strings as lists of code points. -/
abbrev Str := List Nat

/-- ASCII model of `str.lower()` on a single code point. -/
def charLower (c : Nat) : Nat := if 65 ≤ c ∧ c ≤ 90 then c + 32 else c

/-- ASCII model of `str.lower()`. -/
def strLower (s : Str) : Str := s.map charLower

/-- "yes" -/
def yesLit : Str := [121, 101, 115]

/-- "true" -/
def trueLit : Str := [116, 114, 117, 101]

/-- "1" -/
def oneLit : Str := [49]

/-- "general" -/
def generalLit : Str := [103, 101, 110, 101, 114, 97, 108]

/-- "node" -/
def nodeLit : Str := [110, 111, 100, 101]

/-- "name" -/
def nameLit : Str := [110, 97, 109, 101]

/-- "Unknown Restaurant" -/
def unknownLit : Str :=
  [85, 110, 107, 110, 111, 119, 110, 32, 82, 101, 115, 116, 97, 117, 114, 97, 110, 116]

/-- "cuisine" -/
def cuisineLit : Str := [99, 117, 105, 115, 105, 110, 101]

/-- "phone" -/
def phoneLit : Str := [112, 104, 111, 110, 101]

/-- "contact:phone" -/
def contactPhoneLit : Str := [99, 111, 110, 116, 97, 99, 116, 58] ++ phoneLit

/-- "website" -/
def websiteLit : Str := [119, 101, 98, 115, 105, 116, 101]

/-- "contact:website" -/
def contactWebsiteLit : Str := [99, 111, 110, 116, 97, 99, 116, 58] ++ websiteLit

/-- "outdoor_seating" -/
def outdoorSeatingLit : Str :=
  [111, 117, 116, 100, 111, 111, 114, 95, 115, 101, 97, 116, 105, 110, 103]

/-- "delivery" -/
def deliveryLit : Str := [100, 101, 108, 105, 118, 101, 114, 121]

/-- "takeaway" -/
def takeawayLit : Str := [116, 97, 107, 101, 97, 119, 97, 121]

/-- "wheelchair" -/
def wheelchairLit : Str := [119, 104, 101, 101, 108, 99, 104, 97, 105, 114]

/-- "opening_hours" -/
def openingHoursLit : Str :=
  [111, 112, 101, 110, 105, 110, 103, 95, 104, 111, 117, 114, 115]

/-- "addr:street" -/
def addrStreetLit : Str := [97, 100, 100, 114, 58, 115, 116, 114, 101, 101, 116]

/-- "addr:housenumber" -/
def addrHousenumberLit : Str :=
  [97, 100, 100, 114, 58, 104, 111, 117, 115, 101, 110, 117, 109, 98, 101, 114]

/-- Python truthiness of an `Optional[str]`: `None` and `""` are falsy. -/
def pyTruthyStr (o : Option Str) : Bool :=
  match o with
  | none => false
  | some s => !s.isEmpty

/-- Python `a or b` on `Optional[str]` values. -/
def pyOr (a b : Option Str) : Option Str :=
  if pyTruthyStr a then a else b

/-- `tags.get(k)`: association-list lookup on a Python dict of tags. -/
def lookupTag (tags : List (Str × Str)) (k : Str) : Option Str :=
  (tags.find? (fun p => decide (p.1 = k))).map (fun p => p.2)

/-- `OSMImporter._parse_bool`: `if not value: return False;
return value.lower() in ("yes", "true", "1")`. -/
def parse_bool (value : Option Str) : Bool :=
  match value with
  | none => false
  | some s =>
    if s.isEmpty then false
    else decide (strLower s = yesLit) || decide (strLower s = trueLit)
      || decide (strLower s = oneLit)

/-- `OSMImporter._build_address`: street and house number parts, each
appended only when present and truthy, joined by a space. -/
def build_address (tags : List (Str × Str)) : Str :=
  let parts : List Str :=
    (if pyTruthyStr (lookupTag tags addrStreetLit) then
      [(lookupTag tags addrStreetLit).getD []] else [])
    ++ (if pyTruthyStr (lookupTag tags addrHousenumberLit) then
      [(lookupTag tags addrHousenumberLit).getD []] else [])
  match parts with
  | [] => []
  | p :: rest => rest.foldl (fun acc q => acc ++ [32] ++ q) p

/-- A raw OpenStreetMap element as handed to `_parse_osm_element`:
`typ` is `element["type"]`, `lat`/`lon` the optional top-level
coordinates of a node, `center` the optional centre point of a way
(itself holding optional coordinates), `tags` the tag dictionary. -/
structure OsmElement where
  typ : Str
  oid : Nat
  lat : Option Rat
  lon : Option Rat
  center : Option (Option Rat × Option Rat)
  tags : List (Str × Str)
deriving DecidableEq

/-- The dictionary `_parse_osm_element` builds for one restaurant
(`osm_id` is kept as its type/numeric-id components). -/
structure ParsedRestaurant where
  osm_typ : Str
  osm_num : Nat
  name : Str
  latitude : Rat
  longitude : Rat
  city : Str
  country : Str
  cuisine : Str
  address : Str
  phone : Option Str
  website : Option Str
  outdoor_seating : Bool
  delivery : Bool
  takeaway : Bool
  wheelchair : Bool
  opening_hours : Option Str
deriving DecidableEq

/-- Coordinate extraction at the top of `_parse_osm_element`: nodes
carry `lat`/`lon` directly, other elements use their `center` point,
and an element with neither is rejected. -/
def extractCoords (e : OsmElement) : Option (Option Rat × Option Rat) :=
  if e.typ = nodeLit then some (e.lat, e.lon)
  else
    match e.center with
    | some c => some c
    | none => none

/-- The restaurant dictionary `_parse_osm_element` builds once the
coordinates passed the truthiness test: every field comes from a tag
lookup with the schema default. -/
def mkParsed (e : OsmElement) (city country : Str) (la lo : Rat) :
    ParsedRestaurant :=
  { osm_typ := e.typ
    osm_num := e.oid
    name := (lookupTag e.tags nameLit).getD unknownLit
    latitude := la
    longitude := lo
    city := city
    country := country
    cuisine := (lookupTag e.tags cuisineLit).getD generalLit
    address := build_address e.tags
    phone := pyOr (lookupTag e.tags phoneLit) (lookupTag e.tags contactPhoneLit)
    website := pyOr (lookupTag e.tags websiteLit) (lookupTag e.tags contactWebsiteLit)
    outdoor_seating := parse_bool (lookupTag e.tags outdoorSeatingLit)
    delivery := parse_bool (lookupTag e.tags deliveryLit)
    takeaway := parse_bool (lookupTag e.tags takeawayLit)
    wheelchair := parse_bool (lookupTag e.tags wheelchairLit)
    opening_hours := lookupTag e.tags openingHoursLit }

/-- `OSMImporter._parse_osm_element`: coordinate extraction, the Python
truthiness test `if not lat or not lon: return None` (rejecting both
missing and exactly-zero coordinates), then field extraction with
schema defaults. -/
def parse_osm_element (e : OsmElement) (city country : Str) :
    Option ParsedRestaurant :=
  match extractCoords e with
  | none => none
  | some (olat, olon) =>
    match olat, olon with
    | some la, some lo =>
      if decide (la = 0) || decide (lo = 0) then none
      else some (mkParsed e city country la lo)
    | _, _ => none

/-- A row of the PostgreSQL `restaurants` table (`models/db.py`,
`RestaurantDB`); the PostGIS point is carried as `lat`/`lon`. -/
structure RestaurantDB where
  id : Nat
  osm_id : Str
  name : Str
  lat : Rat
  lon : Rat
  address : Option Str
  city : Str
  country : Str
  phone : Option Str
  website : Option Str
  cuisine : Str
  price_range : Int
  rating : Rat
  outdoor_seating : Bool
  accepts_delivery : Bool
  takeaway : Bool
  wheelchair_accessible : Bool
  opening_hours : Option (List (Str × Str))
  is_active : Bool
deriving DecidableEq

/-- A Redis cache document (`models/cache.py`, `RestaurantCache`);
`cached_at` is the creation timestamp, `is_active` defaults to true. -/
structure RestaurantCache where
  db_id : Nat
  osm_id : Str
  name : Str
  lat : Rat
  lon : Rat
  address : Str
  city : Str
  cuisine : Str
  price_range : Int
  rating : Rat
  accepts_delivery : Bool
  outdoor_seating : Bool
  takeaway : Bool
  wheelchair_accessible : Bool
  opening_hours : List (Str × Str)
  phone : Option Str
  website : Option Str
  is_active : Bool
  cached_at : Rat
deriving DecidableEq

/-- `RestaurantCache.cache_age_seconds` evaluated at time `now`. -/
def cacheAgeSeconds (e : RestaurantCache) (now : Rat) : Rat := now - e.cached_at

/-- Which call of `RestaurantService.find_nearby` raised the exception
that escaped, when one did. -/
inductive FindErr where
  /-- `GeoPoint(latitude=lat, longitude=lon)` raised a validation error. -/
  | invalidArgument : FindErr
  /-- the Redis radius query (`IndexManager.find_by_geo_radius_with_distance`)
  raised because the cache is unreachable. -/
  | cacheUnreachable : FindErr
  /-- the PostgreSQL query raised because the store is unreachable. -/
  | storeUnavailable : FindErr
  /-- `cache_entry.insert()` raised during `_cache_results`. -/
  | backfillFailed : FindErr
deriving DecidableEq

/-- External collaborators of one `find_nearby` call: the PostGIS
geodesic distance in meters between two points, the outcome of the
Redis geo-radius query (list of `(document id, distance km)`), the
outcome of each per-document `RestaurantCache.get`, whether
`cache_entry.insert()` calls succeed, the PostgreSQL table (or its
unavailability), and the current wall-clock time. -/
structure Env where
  dist : Rat → Rat → Rat → Rat → Rat
  cacheRadius : Except Unit (List (Nat × Rat))
  cacheGet : Nat → Except Unit (Option RestaurantCache)
  insertOk : Bool
  dbTable : Except Unit (List RestaurantDB)
  now : Rat

/-- Modelled from the spec: beanis `GeoPoint` (not part of this
repository) validates latitude ∈ [-90, 90] and longitude ∈ [-180, 180];
constructing outside range fails with a validation error. -/
def geoPointValid (lat lon : Rat) : Bool :=
  decide (-90 ≤ lat) && decide (lat ≤ 90) && decide (-180 ≤ lon) && decide (lon ≤ 180)

/-- The SQLAlchemy query of `find_nearby` lines 133-145: `ST_DWithin`
within `radius_km * 1000` meters, `is_active == True`,
`rating >= min_rating`, `price_range <= max_price`, and — only when
`cuisine` is truthy — `cuisine == cuisine.lower()`. -/
def dbFilter (env : Env) (tbl : List RestaurantDB) (lat lon radius_km : Rat)
    (cuisine : Option Str) (min_rating : Rat) (max_price : Int) :
    List RestaurantDB :=
  tbl.filter (fun r =>
    decide (env.dist lat lon r.lat r.lon ≤ radius_km * 1000)
    && r.is_active
    && decide (min_rating ≤ r.rating)
    && decide (r.price_range ≤ max_price)
    && (match cuisine with
        | some c => if c.isEmpty then true else decide (r.cuisine = strLower c)
        | none => true))

/-- The `RestaurantCache` constructor call inside
`RestaurantService._cache_results`: every searchable/display field is
copied from the database row, `address` is `str(address)` when truthy
else `""`, `opening_hours` is `opening_hours or {}`, `is_active` keeps
its default `True`, and `cached_at` defaults to the current time. -/
def cacheEntryOfDb (r : RestaurantDB) (now : Rat) : RestaurantCache :=
  { db_id := r.id
    osm_id := r.osm_id
    name := r.name
    lat := r.lat
    lon := r.lon
    address := match r.address with | some a => a | none => []
    city := r.city
    cuisine := r.cuisine
    price_range := r.price_range
    rating := r.rating
    accepts_delivery := r.accepts_delivery
    outdoor_seating := r.outdoor_seating
    takeaway := r.takeaway
    wheelchair_accessible := r.wheelchair_accessible
    opening_hours := match r.opening_hours with | some h => h | none => []
    phone := r.phone
    website := r.website
    is_active := true
    cached_at := now }

/-- The `RestaurantCache` constructor call inside
`RestaurantService._db_to_cache_format` (textually the same field list
as in `_cache_results`, but this object is never saved to Redis). -/
def dbToCacheObj (r : RestaurantDB) (now : Rat) : RestaurantCache :=
  { db_id := r.id
    osm_id := r.osm_id
    name := r.name
    lat := r.lat
    lon := r.lon
    address := match r.address with | some a => a | none => []
    city := r.city
    cuisine := r.cuisine
    price_range := r.price_range
    rating := r.rating
    accepts_delivery := r.accepts_delivery
    outdoor_seating := r.outdoor_seating
    takeaway := r.takeaway
    wheelchair_accessible := r.wheelchair_accessible
    opening_hours := match r.opening_hours with | some h => h | none => []
    phone := r.phone
    website := r.website
    is_active := true
    cached_at := now }

/-- `RestaurantService._db_to_cache_format`: each row is paired with
`ST_Distance` to the user point, converted to kilometers through the
Python-truthy expression `distance_m / 1000.0 if distance_m else 0.0`. -/
def db_to_cache_format (env : Env) (db_results : List RestaurantDB)
    (lat lon : Rat) : List (RestaurantCache × Rat) :=
  db_results.map (fun r =>
    let distance_m := env.dist lat lon r.lat r.lon
    let distance_km := if distance_m = 0 then 0 else distance_m / 1000
    (dbToCacheObj r env.now, distance_km))

/-- Modelled from the spec: the beanis document write performed by
`cache_entry.insert()` (the beanis ODM is not part of this repository);
per the spec, `upsert(entry)` inserts or overwrites the entry keyed by
source id rather than duplicating it. -/
def cacheUpsert (s : List RestaurantCache) (e : RestaurantCache) :
    List RestaurantCache :=
  if s.any (fun x => decide (x.db_id = e.db_id)) then
    s.map (fun x => if x.db_id = e.db_id then e else x)
  else s ++ [e]

/-- Modelled from the spec: `get(sourceId)` on the Geo Cache fetches the
entry keyed by source id, or "not found". -/
def cacheGetState (s : List RestaurantCache) (k : Nat) :
    Option RestaurantCache :=
  s.find? (fun x => decide (x.db_id = k))

/-- The write effect of `RestaurantService._cache_results` on the cache
contents: one upsert per database row, in order. -/
def cache_results (cache : List RestaurantCache) (rs : List RestaurantDB)
    (now : Rat) : List RestaurantCache :=
  rs.foldl (fun s r => cacheUpsert s (cacheEntryOfDb r now)) cache

/-- The continue-guard chain of the cache filter loop in `find_nearby`
lines 98-106, in source order: skip on a truthy cuisine filter the
document does not match, skip on too-low rating, skip on too-high
price, skip on inactive. -/
def cacheDocPasses (doc : RestaurantCache) (cuisine : Option Str)
    (min_rating : Rat) (max_price : Int) : Bool :=
  if (match cuisine with
      | some c => !c.isEmpty && decide (doc.cuisine ≠ strLower c)
      | none => false) then false
  else if decide (doc.rating < min_rating) then false
  else if decide (max_price < doc.price_range) then false
  else if !doc.is_active then false
  else true

/-- The filter loop over the Redis radius results in `find_nearby`
lines 91-113: fetch each document (exceptions and missing documents
skip the entry — the only absorbed cache failures), then apply the
continue-guard chain. -/
def collectCacheResults (cacheGet : Nat → Except Unit (Option RestaurantCache))
    (rwd : List (Nat × Rat)) (cuisine : Option Str) (min_rating : Rat)
    (max_price : Int) : List (RestaurantCache × Rat) :=
  match rwd with
  | [] => []
  | (i, d) :: rest =>
    let tail := collectCacheResults cacheGet rest cuisine min_rating max_price
    match cacheGet i with
    | .error _ => tail
    | .ok none => tail
    | .ok (some doc) =>
      if cacheDocPasses doc cuisine min_rating max_price then (doc, d) :: tail
      else tail

/-- The PostgreSQL fallback path of `find_nearby` (lines 127-160):
query the store (an unreachable store raises), then — when caching is
on and the result list nonempty — synchronously run `_cache_results`
(whose failure raises), and finally return `_db_to_cache_format` of the
rows together with the resulting cache contents. -/
def storeFallback (env : Env) (cache : List RestaurantCache)
    (lat lon radius_km : Rat) (cuisine : Option Str) (min_rating : Rat)
    (max_price : Int) (use_cache : Bool) :
    Except FindErr (List (RestaurantCache × Rat) × List RestaurantCache) :=
  match env.dbTable with
  | .error _ => .error .storeUnavailable
  | .ok tbl =>
    let db_results := dbFilter env tbl lat lon radius_km cuisine min_rating max_price
    if use_cache && !db_results.isEmpty then
      if env.insertOk then
        .ok (db_to_cache_format env db_results lat lon,
          cache_results cache db_results env.now)
      else .error .backfillFailed
    else .ok (db_to_cache_format env db_results lat lon, cache)

/-- `RestaurantService.find_nearby`: construct the `GeoPoint` (validation
may raise), then when `use_cache` run the Redis radius query (an
unreachable cache raises — there is no try/except around this call),
filter the hits, return them on a nonempty result, and otherwise fall
back to PostgreSQL. Returns the result list paired with the cache
contents after the call. -/
def find_nearby (env : Env) (cache : List RestaurantCache)
    (lat lon radius_km : Rat) (cuisine : Option Str) (min_rating : Rat)
    (max_price : Int) (use_cache : Bool) :
    Except FindErr (List (RestaurantCache × Rat) × List RestaurantCache) :=
  if !geoPointValid lat lon then .error .invalidArgument
  else if use_cache then
    match env.cacheRadius with
    | .error _ => .error .cacheUnreachable
    | .ok rwd =>
      let results := collectCacheResults env.cacheGet rwd cuisine min_rating max_price
      if !results.isEmpty then .ok (results, cache)
      else storeFallback env cache lat lon radius_km cuisine min_rating max_price use_cache
  else storeFallback env cache lat lon radius_km cuisine min_rating max_price use_cache

/-- `RestaurantService.warm_cache`: select the active rows of the city,
run `_cache_results` on them, and return how many rows were processed
(paired here with the resulting cache contents). -/
def warm_cache (tbl : List RestaurantDB) (cache : List RestaurantCache)
    (city : Str) (now : Rat) : Nat × List RestaurantCache :=
  let restaurants := tbl.filter (fun r => decide (r.city = city) && r.is_active)
  (restaurants.length, cache_results cache restaurants now)

/-- Python `round(x)` to an integer: round half to even. -/
def pyRound0 (x : Rat) : Int :=
  let f := x.floor
  let frac := x - (f : Rat)
  if frac < 1 / 2 then f
  else if (1 : Rat) / 2 < frac then f + 1
  else if f % 2 = 0 then f else f + 1

/-- Python `round(x, 2)`. -/
def pyRound2 (x : Rat) : Rat := ((pyRound0 (x * 100) : Int) : Rat) / 100

/-- Python `round(x, 1)`. -/
def pyRound1 (x : Rat) : Rat := ((pyRound0 (x * 10) : Int) : Rat) / 10

/-- One element of the `restaurants` response array built by
`find_nearby_restaurants` in `main.py`; `price_dollars` is the length
of the `"$" * price_range` display string. -/
structure FormattedRestaurant where
  id : Nat
  name : Str
  cuisine : Str
  rating : Rat
  price_dollars : Nat
  distance_meters : Int
  distance_km : Rat
  latitude : Rat
  longitude : Rat
  address : Str
  delivery : Bool
  outdoor_seating : Bool
  takeaway : Bool
  wheelchair_accessible : Bool
  phone : Option Str
  website : Option Str
  opening_hours : List (Str × Str)
  cache_age_seconds : Rat
deriving DecidableEq

/-- The response-dict construction of `find_nearby_restaurants` for one
`(restaurant, distance_km)` pair, at wall-clock time `now`:
`distance_meters = round(distance_km * 1000, 0)`,
`distance_km = round(distance_km, 2)`,
`cache_age_seconds = round(restaurant.cache_age_seconds, 1)`. -/
def formatRestaurant (now : Rat) (p : RestaurantCache × Rat) :
    FormattedRestaurant :=
  { id := p.1.db_id
    name := p.1.name
    cuisine := p.1.cuisine
    rating := p.1.rating
    price_dollars := p.1.price_range.toNat
    distance_meters := pyRound0 (p.2 * 1000)
    distance_km := pyRound2 p.2
    latitude := p.1.lat
    longitude := p.1.lon
    address := p.1.address
    delivery := p.1.accepts_delivery
    outdoor_seating := p.1.outdoor_seating
    takeaway := p.1.takeaway
    wheelchair_accessible := p.1.wheelchair_accessible
    phone := p.1.phone
    website := p.1.website
    opening_hours := p.1.opening_hours
    cache_age_seconds := pyRound1 (cacheAgeSeconds p.1 now) }

/-- Insertion step of a stable sort by an integer key: the new element
goes after every element whose key is ≤ its key, as Python stable
`list.sort` places it. -/
def insertByKey (key : α → Int) (x : α) : List α → List α
  | [] => [x]
  | y :: ys => if key y ≤ key x then y :: insertByKey key x ys else x :: y :: ys

/-- Stable sort by an integer key (model of Python `list.sort(key=...)`):
elements are inserted left to right, each after its equals. -/
def sortByKey (key : α → Int) (l : List α) : List α :=
  l.foldl (fun acc x => insertByKey key x acc) []

/-- The result assembly of `find_nearby_restaurants` in `main.py`
(lines 98-132): truncate the service results to `limit`, format each,
then sort the formatted list by `distance_meters`. -/
def find_nearby_restaurants_results (now : Rat)
    (serviceResults : List (RestaurantCache × Rat)) (limit : Nat) :
    List FormattedRestaurant :=
  sortByKey (fun f => f.distance_meters)
    ((serviceResults.take limit).map (formatRestaurant now))

/-- Concrete active restaurant row used in witnesses. -/
def sampleDb : RestaurantDB :=
  { id := 1
    osm_id := [111]
    name := [110]
    lat := 41
    lon := 12
    address := some [97]
    city := [114]
    country := [105]
    phone := none
    website := none
    cuisine := [112]
    price_range := 2
    rating := 4
    outdoor_seating := false
    accepts_delivery := true
    takeaway := false
    wheelchair_accessible := false
    opening_hours := none
    is_active := true }

/-- Second concrete row, with a different source id. -/
def sampleDb2 : RestaurantDB := { sampleDb with id := 2, osm_id := [112] }

/-- Concrete cache entry mirroring `sampleDb`. -/
def entryA : RestaurantCache := cacheEntryOfDb sampleDb 50

/-- Concrete cache entry mirroring `sampleDb2`. -/
def entryB : RestaurantCache := cacheEntryOfDb sampleDb2 50

/-- Environment with a reachable store holding one row, an empty but
reachable cache, and succeeding cache writes. -/
def envStoreOnly : Env :=
  { dist := fun _ _ _ _ => 0
    cacheRadius := .ok []
    cacheGet := fun _ => .error ()
    insertOk := true
    dbTable := .ok [sampleDb]
    now := 100 }

/-- Environment whose cache radius query raises (cache unreachable). -/
def envCacheDown : Env := { envStoreOnly with cacheRadius := .error () }

/-- Environment whose cache writes raise (backfill failure). -/
def envInsertFail : Env := { envStoreOnly with insertOk := false }

/-- Environment with an empty (but reachable) store. -/
def envEmptyDb : Env := { envStoreOnly with dbTable := .ok [] }

/-- When every per-document `RestaurantCache.get` raises, the filter
loop produces no results (each failure is absorbed and skipped). -/
theorem collectCacheResults_all_get_fail
    (cacheGet : Nat → Except Unit (Option RestaurantCache))
    (hget : ∀ i, cacheGet i = .error ())
    (rwd : List (Nat × Rat)) (cuisine : Option Str) (min_rating : Rat)
    (max_price : Int) :
    collectCacheResults cacheGet rwd cuisine min_rating max_price = [] := by
  induction rwd with
  | nil => rfl
  | cons p rest ih =>
    obtain ⟨i, d⟩ := p
    simp only [collectCacheResults, hget i, ih]

/-- The store fallback never reports a validation error. -/
theorem storeFallback_ne_invalidArgument (env : Env)
    (cache : List RestaurantCache) (lat lon radius_km : Rat)
    (cuisine : Option Str) (min_rating : Rat) (max_price : Int)
    (use_cache : Bool) :
    storeFallback env cache lat lon radius_km cuisine min_rating max_price use_cache
      ≠ .error .invalidArgument := by
  unfold storeFallback
  rcases env.dbTable with _ | tbl
  · simp
  · simp only []
    split
    · split <;> simp
    · simp

/-- C1: the claim as stated is false on the code. With the cache
radius query raising (cache unreachable) and the store reachable and
holding a qualifying record, `find_nearby` does not succeed with
store-sourced results: the exception escapes the service call. -/
theorem find_nearby_cacheDown_counterexample :
    find_nearby envCacheDown [] 41 12 2 none 0 4 true
      = .error .cacheUnreachable := by
  rfl

/-- C1 (amended): only failures while fetching individual cached
documents are absorbed — when every per-document get raises, the call
proceeds to the store fallback unharmed; but when the cache radius
query itself raises (cache unreachable) there is no try/except around
it in `find_nearby`, so the exception escapes and the call fails even
though the store is reachable. -/
theorem find_nearby_cache_failure_behavior (env : Env)
    (cache : List RestaurantCache) (lat lon radius_km : Rat)
    (cuisine : Option Str) (min_rating : Rat) (max_price : Int)
    (hval : geoPointValid lat lon = true) :
    (env.cacheRadius = .error () →
      find_nearby env cache lat lon radius_km cuisine min_rating max_price true
        = .error .cacheUnreachable)
    ∧ (∀ rwd, env.cacheRadius = .ok rwd →
        (∀ i, env.cacheGet i = .error ()) →
        find_nearby env cache lat lon radius_km cuisine min_rating max_price true
          = storeFallback env cache lat lon radius_km cuisine min_rating
              max_price true) := by
  constructor
  · intro hcr
    simp [find_nearby, hval, hcr]
  · intro rwd hcr hget
    simp [find_nearby, hval, hcr,
      collectCacheResults_all_get_fail env.cacheGet hget]

/-- Witness for `find_nearby_cache_failure_behavior` at a concrete
environment. -/
theorem find_nearby_cache_failure_behavior_witness :
    (find_nearby envCacheDown [] 41 12 2 none 0 4 true
      = .error .cacheUnreachable)
    ∧ (find_nearby envStoreOnly [] 41 12 2 none 0 4 true
        = storeFallback envStoreOnly [] 41 12 2 none 0 4 true) :=
  ⟨(find_nearby_cache_failure_behavior envCacheDown [] 41 12 2 none 0 4
      (by decide)).1 (by rfl),
   (find_nearby_cache_failure_behavior envStoreOnly [] 41 12 2 none 0 4
      (by decide)).2 [] (by rfl) (fun _ => rfl)⟩

/-- C2: the claim as stated is false on the code. On a store fallback
with caching enabled and a nonempty store result, a failure inside
`_cache_results` (a raising `cache_entry.insert()`) propagates to the
caller: the whole call fails instead of returning the store-sourced
results. -/
theorem backfill_failure_propagates_counterexample :
    find_nearby envInsertFail [] 41 12 2 none 0 4 true
      = .error .backfillFailed := by
  norm_num [find_nearby, geoPointValid, collectCacheResults, storeFallback,
    dbFilter, envInsertFail, envStoreOnly, sampleDb]

/-- C2 (amended): the cache backfill is awaited synchronously on the
critical path of the response — the call returns only after
`_cache_results` has run, its write effect is visible in the returned
cache state, and a backfill failure propagates to the caller as a
failed call rather than being absorbed. -/
theorem backfill_on_critical_path (env : Env) (cache : List RestaurantCache)
    (lat lon radius_km : Rat) (cuisine : Option Str) (min_rating : Rat)
    (max_price : Int) (rwd : List (Nat × Rat)) (tbl : List RestaurantDB)
    (hval : geoPointValid lat lon = true)
    (hcr : env.cacheRadius = .ok rwd)
    (hmiss : collectCacheResults env.cacheGet rwd cuisine min_rating max_price = [])
    (hdb : env.dbTable = .ok tbl)
    (hne : dbFilter env tbl lat lon radius_km cuisine min_rating max_price ≠ []) :
    (env.insertOk = false →
      find_nearby env cache lat lon radius_km cuisine min_rating max_price true
        = .error .backfillFailed)
    ∧ (env.insertOk = true →
      find_nearby env cache lat lon radius_km cuisine min_rating max_price true
        = .ok (db_to_cache_format env
            (dbFilter env tbl lat lon radius_km cuisine min_rating max_price)
            lat lon,
          cache_results cache
            (dbFilter env tbl lat lon radius_km cuisine min_rating max_price)
            env.now)) := by
  have hesc : find_nearby env cache lat lon radius_km cuisine min_rating max_price true
      = storeFallback env cache lat lon radius_km cuisine min_rating max_price true := by
    simp [find_nearby, hval, hcr, hmiss]
  constructor
  · intro hins
    rw [hesc]
    simp [storeFallback, hdb, hne, hins]
  · intro hins
    rw [hesc]
    simp [storeFallback, hdb, hne, hins]

/-- Witness for `backfill_on_critical_path` at a concrete environment. -/
theorem backfill_on_critical_path_witness :
    (envInsertFail.insertOk = false →
      find_nearby envInsertFail [] 41 12 2 none 0 4 true
        = .error .backfillFailed)
    ∧ (envInsertFail.insertOk = true →
      find_nearby envInsertFail [] 41 12 2 none 0 4 true
        = .ok (db_to_cache_format envInsertFail
            (dbFilter envInsertFail [sampleDb] 41 12 2 none 0 4) 41 12,
          cache_results []
            (dbFilter envInsertFail [sampleDb] 41 12 2 none 0 4)
            envInsertFail.now)) :=
  backfill_on_critical_path envInsertFail [] 41 12 2 none 0 4 [] [sampleDb]
    (by decide) (by rfl) (by rfl) (by rfl)
    (by norm_num [dbFilter, envInsertFail, envStoreOnly, sampleDb])

/-- C7: the claim as stated is false on the code. With valid
coordinates and `radius_km = 0` (not strictly positive) the coordinator
does not fail with a validation error: the call proceeds and returns
store-sourced results computed with that radius. -/
theorem nonpositive_radius_not_rejected_counterexample :
    find_nearby envStoreOnly [] 41 12 0 none 0 4 false
      = .ok ([(dbToCacheObj sampleDb 100, 0)], []) := by
  norm_num [find_nearby, geoPointValid, storeFallback, dbFilter,
    db_to_cache_format, envStoreOnly, sampleDb]

/-- C7 (amended): out-of-range center coordinates make `find_nearby`
fail immediately with a validation error (the beanis `GeoPoint`
constructor raises before either store is consulted — the outcome is
the same for every environment); but the coordinator never validates
`radius_km`, so for valid coordinates the call never fails with a
validation error, whatever the radius. -/
theorem coordinate_validation_behavior (env : Env)
    (cache : List RestaurantCache) (lat lon radius_km : Rat)
    (cuisine : Option Str) (min_rating : Rat) (max_price : Int)
    (use_cache : Bool) :
    (geoPointValid lat lon = false →
      find_nearby env cache lat lon radius_km cuisine min_rating max_price use_cache
        = .error .invalidArgument)
    ∧ (geoPointValid lat lon = true →
      find_nearby env cache lat lon radius_km cuisine min_rating max_price use_cache
        ≠ .error .invalidArgument) := by
  constructor
  · intro hval
    simp [find_nearby, hval]
  · intro hval
    unfold find_nearby
    simp only [hval]
    rcases huc : use_cache with _ | _
    · simpa using storeFallback_ne_invalidArgument env cache lat lon radius_km
        cuisine min_rating max_price false
    · simp only [Bool.not_true, Bool.false_eq_true, if_false, if_true]
      rcases hcr : env.cacheRadius with e | rwd
      · simp
      · simp only []
        split
        · simp
        · exact storeFallback_ne_invalidArgument env cache lat lon radius_km
            cuisine min_rating max_price true

/-- Witness for `coordinate_validation_behavior` at concrete inputs:
latitude 200 is rejected for every environment, and radius 0 with valid
coordinates is not rejected. -/
theorem coordinate_validation_behavior_witness :
    (find_nearby envStoreOnly [] 200 12 2 none 0 4 true
      = .error .invalidArgument)
    ∧ (find_nearby envStoreOnly [] 41 12 0 none 0 4 false
        ≠ .error .invalidArgument) :=
  ⟨(coordinate_validation_behavior envStoreOnly [] 200 12 2 none 0 4 true).1
      (by decide),
   (coordinate_validation_behavior envStoreOnly [] 41 12 0 none 0 4 false).2
      (by decide)⟩

/-- C10: when the cache misses and the store query returns no rows, no
cache write happens — the returned cache contents are exactly the
initial ones (so an identical follow-up query falls through to the
store again), and the call succeeds with an empty result list. -/
theorem empty_store_result_leaves_cache_unchanged (env : Env)
    (cache : List RestaurantCache) (lat lon radius_km : Rat)
    (cuisine : Option Str) (min_rating : Rat) (max_price : Int)
    (rwd : List (Nat × Rat)) (tbl : List RestaurantDB)
    (hval : geoPointValid lat lon = true)
    (hcr : env.cacheRadius = .ok rwd)
    (hmiss : collectCacheResults env.cacheGet rwd cuisine min_rating max_price = [])
    (hdb : env.dbTable = .ok tbl)
    (hempty : dbFilter env tbl lat lon radius_km cuisine min_rating max_price = []) :
    find_nearby env cache lat lon radius_km cuisine min_rating max_price true
      = .ok ([], cache) := by
  simp [find_nearby, hval, hcr, hmiss, storeFallback, hdb, hempty,
    db_to_cache_format]

/-- Witness for `empty_store_result_leaves_cache_unchanged` at a
concrete environment with a nonempty initial cache. -/
theorem empty_store_result_leaves_cache_unchanged_witness :
    find_nearby envEmptyDb [entryA] 41 12 2 none 0 4 true
      = .ok ([], [entryA]) :=
  empty_store_result_leaves_cache_unchanged envEmptyDb [entryA] 41 12 2 none 0 4
    [] [] (by decide) (by rfl) (by rfl) (by rfl) (by rfl)

/-- `Rat.floor` agrees with the Mathlib floor. -/
theorem rat_floor_eq_intFloor (q : Rat) : q.floor = ⌊q⌋ := by
  rw [Rat.floor_def, Rat.floor_def']

/-- Inserting an element is a permutation of consing it. -/
theorem perm_insertByKey (key : α → Int) (x : α) (l : List α) :
    (insertByKey key x l).Perm (x :: l) := by
  induction l with
  | nil => exact List.Perm.refl _
  | cons y ys ih =>
    unfold insertByKey
    split
    · exact (ih.cons y).trans (List.Perm.swap x y ys)
    · exact List.Perm.refl _

/-- Inserting into a key-sorted list keeps it key-sorted. -/
theorem pairwise_insertByKey (key : α → Int) (x : α) (l : List α)
    (h : l.Pairwise (fun a b => key a ≤ key b)) :
    (insertByKey key x l).Pairwise (fun a b => key a ≤ key b) := by
  induction l with
  | nil => simp [insertByKey]
  | cons y ys ih =>
    rw [List.pairwise_cons] at h
    obtain ⟨hy, hys⟩ := h
    unfold insertByKey
    split
    case isTrue hk =>
      rw [List.pairwise_cons]
      refine ⟨fun b hb => ?_, ih hys⟩
      rcases List.mem_cons.mp ((perm_insertByKey key x ys).mem_iff.mp hb) with hbx | hbys
      · exact hbx ▸ hk
      · exact hy b hbys
    case isFalse hk =>
      rw [List.pairwise_cons]
      refine ⟨fun b hb => ?_, List.pairwise_cons.mpr ⟨hy, hys⟩⟩
      rcases List.mem_cons.mp hb with hby | hbys
      · subst hby
        omega
      · exact le_trans (by omega) (hy b hbys)

/-- The stable sort is a permutation of its input. -/
theorem sortByKey_perm (key : α → Int) (l : List α) :
    (sortByKey key l).Perm l := by
  have general : ∀ (l acc : List α),
      (l.foldl (fun acc x => insertByKey key x acc) acc).Perm (acc ++ l) := by
    intro l
    induction l with
    | nil => intro acc; simp
    | cons x xs ih =>
      intro acc
      simp only [List.foldl_cons]
      refine ((ih (insertByKey key x acc)).trans ?_)
      refine (((perm_insertByKey key x acc).append_right xs).trans ?_)
      exact List.perm_middle.symm
  simpa [sortByKey] using general l []

/-- The stable sort output is non-decreasing in the key. -/
theorem sortByKey_pairwise (key : α → Int) (l : List α) :
    (sortByKey key l).Pairwise (fun a b => key a ≤ key b) := by
  have general : ∀ (l acc : List α),
      acc.Pairwise (fun a b => key a ≤ key b) →
      (l.foldl (fun acc x => insertByKey key x acc) acc).Pairwise
        (fun a b => key a ≤ key b) := by
    intro l
    induction l with
    | nil => intro acc h; simpa using h
    | cons x xs ih =>
      intro acc h
      simp only [List.foldl_cons]
      exact ih _ (pairwise_insertByKey key x acc h)
  exact general l [] (by simp)

/-- C3: the claim as stated is false on the code. The endpoint applies
`results[:limit]` before sorting, so with two qualifying records at
distances 2 km and 1 km (in that service order) and `limit = 1` the
returned sequence holds only the farther record (2000 m) while the
nearest one (1000 m) is dropped — the returned results are not the
`limit` nearest records. -/
theorem endpoint_truncates_before_sorting_counterexample :
    find_nearby_restaurants_results 100 [(entryA, 2), (entryB, 1)] 1
      = [formatRestaurant 100 (entryA, 2)]
    ∧ (formatRestaurant 100 (entryA, 2)).distance_meters = 2000
    ∧ (formatRestaurant 100 (entryB, 1)).distance_meters = 1000 := by
  refine ⟨rfl, ?_, ?_⟩
  · show pyRound0 (2 * 1000) = 2000
    norm_num [pyRound0, rat_floor_eq_intFloor]
  · show pyRound0 (1 * 1000) = 1000
    norm_num [pyRound0, rat_floor_eq_intFloor]

/-- C3 (amended): the endpoint first truncates the service results to
`limit` (in the order the service produced them), then sorts the
formatted, truncated list by rounded `distance_meters` with Python's
stable sort: the returned sequence is non-decreasing in
`distance_meters` and is a permutation of the formatted truncation;
ties keep their pre-sort order, with no source-id tie-break. -/
theorem endpoint_sorts_truncation (now : Rat)
    (serviceResults : List (RestaurantCache × Rat)) (limit : Nat) :
    (find_nearby_restaurants_results now serviceResults limit).Pairwise
      (fun a b => a.distance_meters ≤ b.distance_meters)
    ∧ (find_nearby_restaurants_results now serviceResults limit).Perm
        ((serviceResults.take limit).map (formatRestaurant now)) :=
  ⟨sortByKey_pairwise _ _, sortByKey_perm _ _⟩

/-- The source ids present in the cache contents. -/
def cacheKeys (s : List RestaurantCache) : List Nat :=
  s.map (fun x => x.db_id)

/-- The existence test inside `cacheUpsert` coincides with key
membership. -/
theorem any_eq_mem_cacheKeys (s : List RestaurantCache) (e : RestaurantCache) :
    (s.any (fun x => decide (x.db_id = e.db_id)) = true)
      ↔ e.db_id ∈ cacheKeys s := by
  rw [List.any_eq_true]
  constructor
  · rintro ⟨x, hx, hp⟩
    exact of_decide_eq_true hp ▸ List.mem_map_of_mem _ hx
  · intro h
    obtain ⟨x, hx, hfx⟩ := List.mem_map.mp h
    exact ⟨x, hx, decide_eq_true hfx⟩

/-- Upserting adds the key only when it is new. -/
theorem cacheKeys_cacheUpsert (s : List RestaurantCache) (e : RestaurantCache) :
    cacheKeys (cacheUpsert s e)
      = if e.db_id ∈ cacheKeys s then cacheKeys s else cacheKeys s ++ [e.db_id] := by
  unfold cacheUpsert
  by_cases h : e.db_id ∈ cacheKeys s
  · rw [if_pos ((any_eq_mem_cacheKeys s e).mpr h), if_pos h]
    simp only [cacheKeys, List.map_map]
    refine List.map_congr_left (fun x _ => ?_)
    by_cases hx : x.db_id = e.db_id <;> simp [hx]
  · rw [if_neg (fun hc => h ((any_eq_mem_cacheKeys s e).mp hc)), if_neg h]
    simp [cacheKeys]

/-- Upserting an already-present key preserves the entry count. -/
theorem length_cacheUpsert (s : List RestaurantCache) (e : RestaurantCache) :
    (cacheUpsert s e).length
      = if e.db_id ∈ cacheKeys s then s.length else s.length + 1 := by
  unfold cacheUpsert
  by_cases h : e.db_id ∈ cacheKeys s
  · rw [if_pos ((any_eq_mem_cacheKeys s e).mpr h), if_pos h]
    simp
  · rw [if_neg (fun hc => h ((any_eq_mem_cacheKeys s e).mp hc)), if_neg h]
    simp

/-- After an upsert the entry's key is present. -/
theorem mem_cacheKeys_upsert_self (s : List RestaurantCache)
    (e : RestaurantCache) : e.db_id ∈ cacheKeys (cacheUpsert s e) := by
  rw [cacheKeys_cacheUpsert]
  by_cases h : e.db_id ∈ cacheKeys s <;> simp [h]

/-- Upserting never removes a key. -/
theorem mem_cacheKeys_upsert_mono (s : List RestaurantCache)
    (e : RestaurantCache) (k : Nat) (h : k ∈ cacheKeys s) :
    k ∈ cacheKeys (cacheUpsert s e) := by
  rw [cacheKeys_cacheUpsert]
  by_cases hm : e.db_id ∈ cacheKeys s <;> simp [hm, h]

/-- A backfill pass never removes a key. -/
theorem mem_cacheKeys_cache_results_mono (rs : List RestaurantDB) :
    ∀ (cache : List RestaurantCache) (now : Rat) (k : Nat),
      k ∈ cacheKeys cache → k ∈ cacheKeys (cache_results cache rs now) := by
  induction rs with
  | nil => intro cache now k h; exact h
  | cons a as ih =>
    intro cache now k h
    exact ih _ now k (mem_cacheKeys_upsert_mono cache _ k h)

/-- After a backfill pass, every processed row's id is a cache key. -/
theorem mem_id_cache_results (rs : List RestaurantDB) :
    ∀ (cache : List RestaurantCache) (now : Rat) (r : RestaurantDB),
      r ∈ rs → r.id ∈ cacheKeys (cache_results cache rs now) := by
  induction rs with
  | nil => intro cache now r h; cases h
  | cons a as ih =>
    intro cache now r h
    rcases List.mem_cons.mp h with rfl | hmem
    · exact mem_cacheKeys_cache_results_mono as _ now r.id
        (mem_cacheKeys_upsert_self cache (cacheEntryOfDb r now))
    · exact ih _ now r hmem

/-- A backfill pass whose rows are all already keyed in the cache
changes neither the entry count nor the key list. -/
theorem cache_results_of_keys_present (rs : List RestaurantDB) :
    ∀ (cache : List RestaurantCache) (now : Rat),
      (∀ r ∈ rs, r.id ∈ cacheKeys cache) →
      (cache_results cache rs now).length = cache.length
        ∧ cacheKeys (cache_results cache rs now) = cacheKeys cache := by
  induction rs with
  | nil => intro cache now _; exact ⟨rfl, rfl⟩
  | cons a as ih =>
    intro cache now h
    have ha : a.id ∈ cacheKeys cache := h a (List.mem_cons_self a as)
    have hkeys : cacheKeys (cacheUpsert cache (cacheEntryOfDb a now))
        = cacheKeys cache := by
      rw [cacheKeys_cacheUpsert]
      exact if_pos ha
    have hlen : (cacheUpsert cache (cacheEntryOfDb a now)).length
        = cache.length := by
      rw [length_cacheUpsert]
      exact if_pos ha
    have hrest : ∀ r ∈ as,
        r.id ∈ cacheKeys (cacheUpsert cache (cacheEntryOfDb a now)) := by
      intro r hr
      rw [hkeys]
      exact h r (List.mem_cons_of_mem a hr)
    obtain ⟨h1, h2⟩ := ih (cacheUpsert cache (cacheEntryOfDb a now)) now hrest
    exact ⟨h1.trans hlen, h2.trans hkeys⟩

/-- C4: `warm_cache` is idempotent on the cache entry count — running
it a second time for the same city upserts every record onto an
already-present key, so the entry count is unchanged, and the returned
count is the number of records processed both times. -/
theorem warm_cache_idempotent (tbl : List RestaurantDB)
    (cache : List RestaurantCache) (city : Str) (now1 now2 : Rat) :
    ((warm_cache tbl (warm_cache tbl cache city now1).2 city now2).2).length
      = ((warm_cache tbl cache city now1).2).length
    ∧ (warm_cache tbl (warm_cache tbl cache city now1).2 city now2).1
      = (warm_cache tbl cache city now1).1 := by
  refine ⟨?_, rfl⟩
  refine (cache_results_of_keys_present _ _ now2 ?_).1
  intro r hr
  exact mem_id_cache_results _ cache now1 r hr

/-- The cache fetch after an upsert returns exactly the upserted
entry. -/
theorem cacheGetState_upsert_self (s : List RestaurantCache)
    (e : RestaurantCache) :
    cacheGetState (cacheUpsert s e) e.db_id = some e := by
  induction s with
  | nil => simp [cacheUpsert, cacheGetState]
  | cons x xs ih =>
    by_cases hx : x.db_id = e.db_id
    · simp [cacheUpsert, cacheGetState, hx, List.find?]
    · by_cases hany : xs.any (fun y => decide (y.db_id = e.db_id)) = true
      · have hh : (x :: xs).any (fun y => decide (y.db_id = e.db_id)) = true := by
          simp [List.any_cons, hany]
        rw [cacheUpsert, if_pos hh]
        have ihm : cacheGetState (xs.map (fun y =>
            if y.db_id = e.db_id then e else y)) e.db_id = some e := by
          have := ih
          rwa [cacheUpsert, if_pos hany] at this
        simp only [List.map_cons, if_neg hx, cacheGetState, List.find?]
        rw [decide_eq_false hx]
        exact ihm
      · have hh : (x :: xs).any (fun y => decide (y.db_id = e.db_id)) = false := by
          simp only [List.any_cons, Bool.or_eq_false_iff]
          exact ⟨decide_eq_false hx, by simpa using hany⟩
        rw [cacheUpsert, if_neg (by simp [hh])]
        have ihm : cacheGetState (xs ++ [e]) e.db_id = some e := by
          have := ih
          rwa [cacheUpsert, if_neg (by simp [hany])] at this
        simp only [List.cons_append, cacheGetState, List.find?]
        rw [decide_eq_false hx]
        exact ihm

/-- C6: the cache is a faithful projection. Backfilling a store row and
fetching it from the cache returns exactly the entry whose searchable
attributes mirror the row, and the displayable fields formatted from a
cache hit and from the store fallback for the same row agree on every
field except `cache_age_seconds`. -/
theorem cache_projection_faithful (r : RestaurantDB)
    (s : List RestaurantCache) (now1 now2 t d : Rat) :
    (cacheGetState (cacheUpsert s (cacheEntryOfDb r now1)) r.id
        = some (cacheEntryOfDb r now1)
      ∧ (cacheEntryOfDb r now1).name = r.name
      ∧ (cacheEntryOfDb r now1).cuisine = r.cuisine
      ∧ (cacheEntryOfDb r now1).rating = r.rating
      ∧ (cacheEntryOfDb r now1).price_range = r.price_range
      ∧ (cacheEntryOfDb r now1).lat = r.lat
      ∧ (cacheEntryOfDb r now1).lon = r.lon
      ∧ (cacheEntryOfDb r now1).city = r.city)
    ∧ (let hit := formatRestaurant t (cacheEntryOfDb r now1, d)
       let fb := formatRestaurant t (dbToCacheObj r now2, d)
       hit.id = fb.id ∧ hit.name = fb.name ∧ hit.cuisine = fb.cuisine
        ∧ hit.rating = fb.rating ∧ hit.price_dollars = fb.price_dollars
        ∧ hit.distance_meters = fb.distance_meters
        ∧ hit.distance_km = fb.distance_km ∧ hit.latitude = fb.latitude
        ∧ hit.longitude = fb.longitude ∧ hit.address = fb.address
        ∧ hit.delivery = fb.delivery
        ∧ hit.outdoor_seating = fb.outdoor_seating
        ∧ hit.takeaway = fb.takeaway
        ∧ hit.wheelchair_accessible = fb.wheelchair_accessible
        ∧ hit.phone = fb.phone ∧ hit.website = fb.website
        ∧ hit.opening_hours = fb.opening_hours) :=
  ⟨⟨cacheGetState_upsert_self s (cacheEntryOfDb r now1),
    rfl, rfl, rfl, rfl, rfl, rfl, rfl⟩,
   ⟨rfl, rfl, rfl, rfl, rfl, rfl, rfl, rfl, rfl, rfl, rfl, rfl, rfl, rfl,
    rfl, rfl, rfl⟩⟩

/-- Concrete node element with nonzero coordinates and no tags. -/
def sampleNode : OsmElement :=
  { typ := nodeLit
    oid := 5
    lat := some 1
    lon := some 2
    center := none
    tags := [] }

/-- The record `_parse_osm_element` produces for `sampleNode`. -/
def sampleParsed : ParsedRestaurant :=
  { osm_typ := nodeLit
    osm_num := 5
    name := unknownLit
    latitude := 1
    longitude := 2
    city := [99]
    country := [107]
    cuisine := generalLit
    address := []
    phone := none
    website := none
    outdoor_seating := false
    delivery := false
    takeaway := false
    wheelchair := false
    opening_hours := none }

/-- Concrete node element missing its longitude. -/
def sampleNodeNoLon : OsmElement := { sampleNode with lon := none }

/-- Concrete non-node element with no center point. -/
def sampleWayNoCenter : OsmElement :=
  { sampleNode with typ := [119, 97, 121] }

/-- Concrete node element whose latitude is exactly 0. -/
def sampleNodeZeroLat : OsmElement := { sampleNode with lat := some 0 }

/-- Inversion for a successful parse: the coordinates were present and
nonzero, and the record is the tag-extraction record. -/
theorem parse_osm_element_some_inv (e : OsmElement) (city country : Str)
    (r : ParsedRestaurant) (h : parse_osm_element e city country = some r) :
    ∃ la lo, extractCoords e = some (some la, some lo) ∧ ¬la = 0 ∧ ¬lo = 0
      ∧ r = mkParsed e city country la lo := by
  unfold parse_osm_element at h
  cases hc : extractCoords e with
  | none =>
    rw [hc] at h
    cases h
  | some p =>
    obtain ⟨olat, olon⟩ := p
    rw [hc] at h
    cases olat with
    | none =>
      cases olon <;> simp at h
    | some la =>
      cases olon with
      | none => simp at h
      | some lo =>
        have h' : (if (decide (la = 0) || decide (lo = 0)) = true then none
            else some (mkParsed e city country la lo)) = some r := h
        by_cases hz : (decide (la = 0) || decide (lo = 0)) = true
        · rw [if_pos hz] at h'
          cases h'
        · rw [if_neg hz] at h'
          simp only [Bool.or_eq_true, decide_eq_true_eq, not_or] at hz
          exact ⟨la, lo, rfl, hz.1, hz.2, (Option.some.inj h').symm⟩

/-- C8: the ingestion-boundary mapping applies the schema defaults — a
missing cuisine tag yields the sentinel "general", a missing boolean
feature tag (and any value outside yes/true/1 case-insensitively)
yields `false`, and an element with missing coordinates is rejected
(nodes without `lat`/`lon`, other elements without a `center`). -/
theorem parser_schema_defaults :
    (∀ (e : OsmElement) (city country : Str) (r : ParsedRestaurant),
        parse_osm_element e city country = some r →
        lookupTag e.tags cuisineLit = none → r.cuisine = generalLit)
    ∧ (∀ (e : OsmElement) (city country : Str) (r : ParsedRestaurant),
        parse_osm_element e city country = some r →
        lookupTag e.tags deliveryLit = none → r.delivery = false)
    ∧ parse_bool none = false
    ∧ (∀ s : Str, strLower s ≠ yesLit → strLower s ≠ trueLit →
        strLower s ≠ oneLit → parse_bool (some s) = false)
    ∧ (∀ (e : OsmElement) (city country : Str), e.typ = nodeLit →
        (e.lat = none ∨ e.lon = none) → parse_osm_element e city country = none)
    ∧ (∀ (e : OsmElement) (city country : Str), e.typ ≠ nodeLit →
        e.center = none → parse_osm_element e city country = none) := by
  refine ⟨?_, ?_, rfl, ?_, ?_, ?_⟩
  · intro e city country r h hnone
    obtain ⟨la, lo, hc, h1, h2, rfl⟩ := parse_osm_element_some_inv e city country r h
    simp [mkParsed, hnone]
  · intro e city country r h hnone
    obtain ⟨la, lo, hc, h1, h2, rfl⟩ := parse_osm_element_some_inv e city country r h
    simp [mkParsed, hnone, parse_bool]
  · intro s h1 h2 h3
    unfold parse_bool
    by_cases hs : s.isEmpty <;>
      simp [hs, h1, h2, h3]
  · intro e city country htyp hml
    have hc : extractCoords e = some (e.lat, e.lon) := by
      unfold extractCoords
      rw [if_pos htyp]
    unfold parse_osm_element
    rw [hc]
    rcases hml with h | h
    · rw [h]
    · rw [h]
      cases e.lat <;> rfl
  · intro e city country htyp hcen
    have hc : extractCoords e = none := by
      unfold extractCoords
      rw [if_neg htyp, hcen]
    unfold parse_osm_element
    rw [hc]

/-- Witness for `parser_schema_defaults` at concrete elements: a
tagless node gets cuisine "general" and delivery false, the tag value
"no" parses to false, and a node without longitude as well as a way
without center are rejected. -/
theorem parser_schema_defaults_witness :
    sampleParsed.cuisine = generalLit
    ∧ sampleParsed.delivery = false
    ∧ parse_bool (some [110, 111]) = false
    ∧ parse_osm_element sampleNodeNoLon [99] [107] = none
    ∧ parse_osm_element sampleWayNoCenter [99] [107] = none :=
  ⟨parser_schema_defaults.1 sampleNode [99] [107] sampleParsed (by rfl) (by rfl),
   parser_schema_defaults.2.1 sampleNode [99] [107] sampleParsed (by rfl) (by rfl),
   parser_schema_defaults.2.2.2.1 [110, 111] (by decide) (by decide) (by decide),
   parser_schema_defaults.2.2.2.2.1 sampleNodeNoLon [99] [107] (by rfl)
     (Or.inr (by rfl)),
   parser_schema_defaults.2.2.2.2.2 sampleWayNoCenter [99] [107] (by decide)
     (by rfl)⟩

/-- C9: an element whose present latitude or longitude is exactly 0 is
rejected by the parser — the coordinate presence test is Python
truthiness (`if not lat or not lon`), which also rejects the valid
coordinate 0 — for nodes and for center-carrying elements alike. -/
theorem zero_coordinate_rejected (e : OsmElement) (city country : Str)
    (h : (e.typ = nodeLit ∧ (e.lat = some 0 ∨ e.lon = some 0))
      ∨ (e.typ ≠ nodeLit ∧ ∃ olat olon, e.center = some (olat, olon)
          ∧ (olat = some 0 ∨ olon = some 0))) :
    parse_osm_element e city country = none := by
  rcases h with ⟨htyp, hz⟩ | ⟨htyp, olat, olon, hcen, hz⟩
  · have hc : extractCoords e = some (e.lat, e.lon) := by
      unfold extractCoords
      rw [if_pos htyp]
    unfold parse_osm_element
    rw [hc]
    rcases hz with h0 | h0
    · rw [h0]
      cases e.lon with
      | none => rfl
      | some lo => simp
    · rw [h0]
      cases e.lat with
      | none => rfl
      | some la => simp
  · have hc : extractCoords e = some (olat, olon) := by
      unfold extractCoords
      rw [if_neg htyp, hcen]
    unfold parse_osm_element
    rw [hc]
    rcases hz with h0 | h0
    · rw [h0]
      cases olon with
      | none => rfl
      | some lo => simp
    · rw [h0]
      cases olat with
      | none => rfl
      | some la => simp

/-- Witness for `zero_coordinate_rejected`: a node at the prime
meridian crossing (latitude 0, longitude 12) is rejected. -/
theorem zero_coordinate_rejected_witness :
    parse_osm_element sampleNodeZeroLat [99] [107] = none :=
  zero_coordinate_rejected sampleNodeZeroLat [99] [107]
    (Or.inl ⟨by rfl, Or.inl (by rfl)⟩)

/-- ASCII lowering is idempotent on one code point. -/
theorem charLower_idem (c : Nat) : charLower (charLower c) = charLower c := by
  unfold charLower
  by_cases h : 65 ≤ c ∧ c ≤ 90
  · rw [if_pos h, if_neg (by omega)]
  · rw [if_neg h, if_neg h]

/-- ASCII lowering is idempotent. -/
theorem strLower_idem (s : Str) : strLower (strLower s) = strLower s := by
  unfold strLower
  rw [List.map_map]
  exact List.map_congr_left (fun c _ => by simp [Function.comp, charLower_idem])

/-- A document passing the guard chain satisfies the filter
predicates. -/
theorem cacheDocPasses_spec (doc : RestaurantCache) (cuisine : Option Str)
    (min_rating : Rat) (max_price : Int)
    (h : cacheDocPasses doc cuisine min_rating max_price = true) :
    min_rating ≤ doc.rating ∧ doc.price_range ≤ max_price
      ∧ doc.is_active = true
      ∧ (∀ c, cuisine = some c → c.isEmpty = false → doc.cuisine = strLower c) := by
  unfold cacheDocPasses at h
  split at h
  · cases h
  · split at h
    · cases h
    · split at h
      · cases h
      · split at h
        · cases h
        · rename_i hA hB hC hD
          refine ⟨?_, ?_, ?_, ?_⟩
          · exact le_of_not_lt (by simpa using hB)
          · exact le_of_not_lt (by simpa using hC)
          · simpa using hD
          · intro c hc hne
            subst hc
            simp only [hne, Bool.not_false, Bool.true_and,
              decide_eq_true_eq] at hA
            exact not_not.mp hA

/-- Every pair produced by the cache-path filter loop passed the
rating, price, activity and cuisine checks. -/
theorem mem_collectCacheResults
    (cacheGet : Nat → Except Unit (Option RestaurantCache))
    (rwd : List (Nat × Rat)) (cuisine : Option Str) (min_rating : Rat)
    (max_price : Int) (doc : RestaurantCache) (d : Rat)
    (h : (doc, d) ∈ collectCacheResults cacheGet rwd cuisine min_rating max_price) :
    min_rating ≤ doc.rating ∧ doc.price_range ≤ max_price
      ∧ doc.is_active = true
      ∧ (∀ c, cuisine = some c → c.isEmpty = false → doc.cuisine = strLower c) := by
  induction rwd with
  | nil => cases h
  | cons p rest ih =>
    obtain ⟨i, dd⟩ := p
    cases hg : cacheGet i with
    | error e =>
      have h' : (doc, d) ∈ collectCacheResults cacheGet rest cuisine min_rating
          max_price := by
        unfold collectCacheResults at h
        rwa [hg] at h
      exact ih h'
    | ok od =>
      cases od with
      | none =>
        have h' : (doc, d) ∈ collectCacheResults cacheGet rest cuisine min_rating
            max_price := by
          unfold collectCacheResults at h
          rwa [hg] at h
        exact ih h'
      | some doc' =>
        have h' : (doc, d) ∈
            (if cacheDocPasses doc' cuisine min_rating max_price then
              (doc', dd) :: collectCacheResults cacheGet rest cuisine min_rating max_price
            else collectCacheResults cacheGet rest cuisine min_rating max_price) := by
          unfold collectCacheResults at h
          rwa [hg] at h
        by_cases hP : cacheDocPasses doc' cuisine min_rating max_price = true
        · rw [if_pos hP] at h'
          rcases List.mem_cons.mp h' with heq | hmem
          · have hdoc : doc = doc' := congrArg Prod.fst heq
            subst hdoc
            exact cacheDocPasses_spec doc cuisine min_rating max_price hP
          · exact ih hmem
        · rw [if_neg hP] at h'
          exact ih h'

/-- Inversion of a successful store fallback: the result list is the
normalized form of the filtered store rows. -/
theorem storeFallback_ok_inv (env : Env) (cache : List RestaurantCache)
    (lat lon radius_km : Rat) (cuisine : Option Str) (min_rating : Rat)
    (max_price : Int) (use_cache : Bool)
    (res : List (RestaurantCache × Rat)) (cache' : List RestaurantCache)
    (h : storeFallback env cache lat lon radius_km cuisine min_rating max_price use_cache
        = .ok (res, cache')) :
    ∃ tbl, env.dbTable = .ok tbl
      ∧ res = db_to_cache_format env
          (dbFilter env tbl lat lon radius_km cuisine min_rating max_price)
          lat lon := by
  unfold storeFallback at h
  cases hdb : env.dbTable with
  | error e =>
    rw [hdb] at h
    cases h
  | ok tbl =>
    rw [hdb] at h
    refine ⟨tbl, rfl, ?_⟩
    have h' : (if (use_cache
          && !(dbFilter env tbl lat lon radius_km cuisine min_rating max_price).isEmpty) = true
        then
          (if env.insertOk = true then
            (Except.ok
              (db_to_cache_format env
                (dbFilter env tbl lat lon radius_km cuisine min_rating max_price)
                lat lon,
              cache_results cache
                (dbFilter env tbl lat lon radius_km cuisine min_rating max_price)
                env.now) :
              Except FindErr (List (RestaurantCache × Rat) × List RestaurantCache))
          else .error .backfillFailed)
        else
          .ok (db_to_cache_format env
            (dbFilter env tbl lat lon radius_km cuisine min_rating max_price)
            lat lon, cache)) = .ok (res, cache') := h
    split at h'
    · split at h'
      · exact congrArg Prod.fst (Except.ok.inj h') |>.symm
      · cases h'
    · exact congrArg Prod.fst (Except.ok.inj h') |>.symm

/-- Every pair in the normalized store output mirrors one of the rows. -/
theorem mem_db_to_cache_format (env : Env) (db_results : List RestaurantDB)
    (lat lon : Rat) (doc : RestaurantCache) (d : Rat)
    (h : (doc, d) ∈ db_to_cache_format env db_results lat lon) :
    ∃ r ∈ db_results, doc = dbToCacheObj r env.now := by
  unfold db_to_cache_format at h
  obtain ⟨r, hr, heq⟩ := List.mem_map.mp h
  refine ⟨r, hr, ?_⟩
  have := congrArg Prod.fst heq
  simpa using this.symm

/-- Every row surviving the SQL filter satisfies its predicates. -/
theorem mem_dbFilter (env : Env) (tbl : List RestaurantDB)
    (lat lon radius_km : Rat) (cuisine : Option Str) (min_rating : Rat)
    (max_price : Int) (r : RestaurantDB)
    (h : r ∈ dbFilter env tbl lat lon radius_km cuisine min_rating max_price) :
    min_rating ≤ r.rating ∧ r.price_range ≤ max_price ∧ r.is_active = true
      ∧ (∀ c, cuisine = some c → c.isEmpty = false → r.cuisine = strLower c) := by
  unfold dbFilter at h
  have hp := (List.mem_filter.mp h).2
  simp only [Bool.and_eq_true, decide_eq_true_eq] at hp
  obtain ⟨⟨⟨⟨hdist, hact⟩, hrat⟩, hpr⟩, hcui⟩ := hp
  refine ⟨hrat, hpr, hact, ?_⟩
  intro c hc hne
  subst hc
  simp only [hne, Bool.false_eq_true, if_false, decide_eq_true_eq] at hcui
  exact hcui

/-- C5: every result returned by `find_nearby` — cache path or store
fallback — satisfies the filters: rating at least `min_rating`
(inclusive), price at most `max_price` (inclusive), the document is
active, and when a truthy cuisine filter is given (Python treats an
empty string like an absent filter) the document cuisine equals the
filter case-insensitively. -/
theorem find_nearby_results_satisfy_filters (env : Env)
    (cache : List RestaurantCache) (lat lon radius_km : Rat)
    (cuisine : Option Str) (min_rating : Rat) (max_price : Int)
    (use_cache : Bool) (res : List (RestaurantCache × Rat))
    (cache' : List RestaurantCache) (doc : RestaurantCache) (d : Rat)
    (hok : find_nearby env cache lat lon radius_km cuisine min_rating max_price use_cache
        = .ok (res, cache'))
    (hmem : (doc, d) ∈ res) :
    min_rating ≤ doc.rating ∧ doc.price_range ≤ max_price
      ∧ doc.is_active = true
      ∧ (∀ c, cuisine = some c → c.isEmpty = false →
          strLower doc.cuisine = strLower c) := by
  have fromStore : ∀ b : Bool,
      storeFallback env cache lat lon radius_km cuisine min_rating max_price b
          = .ok (res, cache') →
      min_rating ≤ doc.rating ∧ doc.price_range ≤ max_price
        ∧ doc.is_active = true
        ∧ (∀ c, cuisine = some c → c.isEmpty = false →
            strLower doc.cuisine = strLower c) := by
    intro b hsf
    obtain ⟨tbl, hdb, rfl⟩ := storeFallback_ok_inv env cache lat lon radius_km
      cuisine min_rating max_price b res cache' hsf
    obtain ⟨r, hr, rfl⟩ := mem_db_to_cache_format env _ lat lon doc d hmem
    obtain ⟨h1, h2, h3, h4⟩ := mem_dbFilter env tbl lat lon radius_km cuisine
      min_rating max_price r hr
    refine ⟨h1, h2, rfl, ?_⟩
    intro c hc hne
    have := h4 c hc hne
    show strLower r.cuisine = strLower c
    rw [this, strLower_idem]
  unfold find_nearby at hok
  cases hval : geoPointValid lat lon with
  | false =>
    rw [hval] at hok
    have hok' : (Except.error FindErr.invalidArgument
        : Except FindErr (List (RestaurantCache × Rat) × List RestaurantCache))
        = .ok (res, cache') := hok
    cases hok'
  | true =>
    rw [hval] at hok
    cases use_cache with
    | false =>
      have hsf : storeFallback env cache lat lon radius_km cuisine min_rating
          max_price false = .ok (res, cache') := hok
      exact fromStore false hsf
    | true =>
      cases hcr : env.cacheRadius with
      | error e =>
        rw [hcr] at hok
        have hok' : (Except.error FindErr.cacheUnreachable
            : Except FindErr (List (RestaurantCache × Rat) × List RestaurantCache))
            = .ok (res, cache') := hok
        cases hok'
      | ok rwd =>
        rw [hcr] at hok
        have hok' : (if (!(collectCacheResults env.cacheGet rwd cuisine
              min_rating max_price).isEmpty) = true
            then (Except.ok (collectCacheResults env.cacheGet rwd cuisine
                min_rating max_price, cache)
              : Except FindErr (List (RestaurantCache × Rat) × List RestaurantCache))
            else storeFallback env cache lat lon radius_km cuisine min_rating
              max_price true) = .ok (res, cache') := hok
        cases hres : (collectCacheResults env.cacheGet rwd cuisine min_rating
            max_price).isEmpty with
        | true =>
          rw [if_neg (by simp [hres])] at hok'
          exact fromStore true hok'
        | false =>
          rw [if_pos (by simp [hres])] at hok'
          have hres_eq : collectCacheResults env.cacheGet rwd cuisine min_rating
              max_price = res :=
            congrArg Prod.fst (Except.ok.inj hok')
          obtain ⟨h1, h2, h3, h4⟩ := mem_collectCacheResults env.cacheGet rwd
            cuisine min_rating max_price doc d (hres_eq ▸ hmem)
          refine ⟨h1, h2, h3, ?_⟩
          intro c hc hne
          rw [h4 c hc hne, strLower_idem]

/-- Witness for `find_nearby_results_satisfy_filters`: a store-fallback
call with an uppercase cuisine filter returns the lowercase-cuisine
sample record, which satisfies every filter. -/
theorem find_nearby_results_satisfy_filters_witness :
    (0 : Rat) ≤ (dbToCacheObj sampleDb 100).rating
    ∧ (dbToCacheObj sampleDb 100).price_range ≤ 4
    ∧ (dbToCacheObj sampleDb 100).is_active = true
    ∧ (∀ c, (some [80] : Option Str) = some c → c.isEmpty = false →
        strLower (dbToCacheObj sampleDb 100).cuisine = strLower c) :=
  find_nearby_results_satisfy_filters envStoreOnly [] 41 12 2 (some [80]) 0 4
    false [(dbToCacheObj sampleDb 100, 0)] [] (dbToCacheObj sampleDb 100) 0
    (by norm_num [find_nearby, geoPointValid, storeFallback, dbFilter,
      db_to_cache_format, strLower, charLower, envStoreOnly, sampleDb])
    (List.mem_singleton.mpr rfl)

end RestaurantFinder
